import Mathlib

/-!
Verification of the fraud-detection ingestion pipeline
(`src/backend/server.js`) against its specification.

The whole pipeline lives in one file: a Kafka consumer whose
`eachMessage` handler parses a transaction payload, runs twelve additive
risk rules, classifies the resulting score, persists a transaction
record, and conditionally creates an alert; an HTTP handler applies
reviewer updates to alerts.

Modelling conventions:
* JavaScript numbers are exact rationals (`ℚ`).  All rule weights and
  thresholds in the source are decimal literals, embedded here as the
  exact rationals they denote.
* A JavaScript value, as far as the handler inspects one, is a `JVal`:
  a number, a string, a boolean, or some other value of which only
  truthiness is observed.  An absent field is `Option.none`.
* A `Date` is a `DateValue`: either valid with its local `getHours`
  value, or invalid (`new Date` applied to an unparseable argument);
  `getHours` of an invalid date is `NaN`, and both `NaN >= 23` and
  `NaN <= 5` are false, which `condNight` reflects.
* The document store is a pair of lists; persistence failures are
  injected through an environment flag, and `Number.toLocaleString`
  is abstracted as `toString` (no claim inspects message text).
-/

namespace FraudDetection

/-- A JavaScript value as far as the consumer inspects it: a number, a
string, a boolean, or any other value of which only truthiness is
observed. -/
inductive JVal where
  | num (q : ℚ)
  | str (s : String)
  | jbool (b : Bool)
  | obj (truthy : Bool)
deriving DecidableEq, Repr

/-- JavaScript truthiness of a `JVal`: `0`, `""` and `false` are falsy. -/
def jsTruthy : JVal → Bool
  | .num q => decide (q ≠ 0)
  | .str s => decide (s ≠ "")
  | .jbool b => b
  | .obj t => t

/-- Truthiness of a possibly absent field (`undefined` is falsy). -/
def jsTruthyOpt : Option JVal → Bool
  | some v => jsTruthy v
  | none => false

/-- Does `typeof v === 'number'` hold? -/
def jsIsNumber : JVal → Bool
  | .num _ => true
  | _ => false

/-- Does `Number.isInteger(v)` hold?  True exactly for numbers with
denominator 1 (no coercion of strings). -/
def isIntegerNum : JVal → Bool
  | .num q => decide (q.den = 1)
  | _ => false

/-- A JavaScript `Date`: valid with its local `getHours` value, or the
Invalid Date produced by `new Date` on an unparseable argument. -/
structure DateValue where
  valid : Bool
  hour : Nat
deriving DecidableEq, Repr

/-- The Invalid Date. -/
def invalidDate : DateValue := ⟨false, 0⟩

/-- The `timestamp` field of a payload: absent, present but falsy
(e.g. `0`, `""`, `null`), or present and truthy; in the present cases
`parsed` is the `Date` that `new Date(value)` yields. -/
inductive TsField where
  | absent
  | falsy (parsed : DateValue)
  | truthy (parsed : DateValue)
deriving DecidableEq, Repr

/-- The `location` object: `risk` and `country` sub-fields. -/
structure Location where
  risk : Option JVal
  country : Option String
deriving DecidableEq, Repr

/-- A parsed transaction payload, with exactly the fields the handler
reads.  Every field is optional, as in the JSON source. -/
structure Txn where
  id : Option JVal := none
  transactionId : Option JVal := none
  accountId : Option String := none
  amount : Option JVal := none
  merchant : Option JVal := none
  category : Option JVal := none
  location : Option Location := none
  cvvMatch : Option JVal := none
  avsMatch : Option JVal := none
  device : Option JVal := none
  isVPN : Option JVal := none
  isTor : Option JVal := none
  previousDeclines : Option JVal := none
  accountAge : Option JVal := none
  timestamp : TsField := .absent
deriving DecidableEq, Repr

/-- `txn.id || txn.transactionId`, then the `if (!transactionId)` guard:
the resolved identifier, or `none` when the resolved value is falsy. -/
def jsTransactionId (t : Txn) : Option JVal :=
  let r : Option JVal :=
    match t.id with
    | some v => if jsTruthy v then some v else t.transactionId
    | none => t.transactionId
  match r with
  | some v => if jsTruthy v then some v else none
  | none => none

/-- `txn.timestamp ? new Date(txn.timestamp) : new Date()`: the payload
timestamp is used whenever it is truthy — even when it parses to an
Invalid Date — and the processing time `now` otherwise. -/
def effTimestamp (ts : TsField) (now : DateValue) : DateValue :=
  match ts with
  | .truthy d => d
  | _ => now

/-- Substring test on character lists (JavaScript `String.includes`). -/
def listIncludes (l pat : List Char) : Bool :=
  pat.isPrefixOf l ||
    match l with
    | [] => false
    | _ :: rest => listIncludes rest pat

/-- JavaScript `s.includes(pat)`. -/
def strIncludes (s pat : String) : Bool :=
  listIncludes s.data pat.data

/-- `txn.location?.risk` (undefined when `location` is absent). -/
def locRisk (t : Txn) : Option JVal :=
  match t.location with
  | some l => l.risk
  | none => none

/-- Rule 1 condition: `txn.location?.risk === 'high'`. -/
def condGeo (t : Txn) : Bool :=
  decide (locRisk t = some (JVal.str "high"))

/-- Rule 2 condition: `txn.cvvMatch === false`. -/
def condCvv (t : Txn) : Bool :=
  decide (t.cvvMatch = some (JVal.jbool false))

/-- Rule 3 condition: `txn.avsMatch === false`. -/
def condAvs (t : Txn) : Bool :=
  decide (t.avsMatch = some (JVal.jbool false))

/-- Rule 4 condition: `typeof txn.amount === 'number' && txn.amount > 100000`. -/
def condAmountHigh (t : Txn) : Bool :=
  match t.amount with
  | some (.num q) => decide ((100000 : ℚ) < q)
  | _ => false

/-- Guard of the `else if` branch of rule 4/5:
`typeof txn.amount === 'number' && txn.amount > 50000`. -/
def condAmountOver50k (t : Txn) : Bool :=
  match t.amount with
  | some (.num q) => decide ((50000 : ℚ) < q)
  | _ => false

/-- The merchant names treated as suspicious. -/
def suspiciousMerchants : List String :=
  ["UNKNOWN_MERCHANT", "CRYPTO_EXCHANGE", "OFFSHORE_CASINO", "HIGH_RISK_VENDOR"]

/-- Rule 6 condition: `typeof txn.merchant === 'string' &&
suspiciousMerchants.some(m => txn.merchant.includes(m))`. -/
def condMerchant (t : Txn) : Bool :=
  match t.merchant with
  | some (.str s) => suspiciousMerchants.any (fun m => strIncludes s m)
  | _ => false

/-- The categories treated as suspicious. -/
def suspiciousCategories : List String :=
  ["GAMBLING", "CRYPTO", "WIRE_TRANSFER", "GIFT_CARDS"]

/-- Rule 7 condition: `suspiciousCategories.includes(txn.category)`
(strict equality, so only string values can match). -/
def condCategory (t : Txn) : Bool :=
  match t.category with
  | some (.str s) => decide (s ∈ suspiciousCategories)
  | _ => false

/-- The device names treated as suspicious. -/
def suspiciousDevices : List String :=
  ["Emulator", "Unknown Device", "Rooted Android", "Jailbroken iPhone"]

/-- Rule 8 condition: `suspiciousDevices.includes(txn.device)`. -/
def condDevice (t : Txn) : Bool :=
  match t.device with
  | some (.str s) => decide (s ∈ suspiciousDevices)
  | _ => false

/-- Rule 9 condition: `txn.isVPN || txn.isTor` (truthiness). -/
def condVpn (t : Txn) : Bool :=
  jsTruthyOpt t.isVPN || jsTruthyOpt t.isTor

/-- Rule 10 condition:
`Number.isInteger(txn.previousDeclines) && txn.previousDeclines >= 3`. -/
def condDeclines (t : Txn) : Bool :=
  match t.previousDeclines with
  | some (.num q) => decide (q.den = 1) && decide ((3 : ℚ) ≤ q)
  | _ => false

/-- Rule 11 condition:
`typeof txn.accountAge === 'number' && txn.accountAge < 30`. -/
def condAccountAge (t : Txn) : Bool :=
  match t.accountAge with
  | some (.num q) => decide (q < (30 : ℚ))
  | _ => false

/-- Rule 12 condition: `hour >= 23 || hour <= 5` on `getHours()` of the
effective timestamp; on an Invalid Date `getHours()` is `NaN` and both
comparisons are false. -/
def condNight (d : DateValue) : Bool :=
  d.valid && (decide (23 ≤ d.hour) || decide (d.hour ≤ 5))

/-- One triggered rule: machine code and human-readable message. -/
structure Indicator where
  code : String
  message : String
deriving DecidableEq, Repr

/-- `txn.location.country || 'unknown'` interpolated in the geography
message. -/
def geoMsg (t : Txn) : String :=
  "High risk geography: " ++
    (match t.location with
     | some l =>
       match l.country with
       | some c => if c = "" then "unknown" else c
       | none => "unknown"
     | none => "unknown")

/-- Number rendering standing in for `toLocaleString`. -/
def numText (v : Option JVal) : String :=
  match v with
  | some (.num q) => toString q
  | _ => ""

/-- Message of the high-amount rule. -/
def highAmtMsg (t : Txn) : String :=
  "High amount: ₹" ++ numText t.amount

/-- Message of the medium-amount rule. -/
def medAmtMsg (t : Txn) : String :=
  "Medium amount: ₹" ++ numText t.amount

/-- Message of the merchant rule. -/
def merchMsg (t : Txn) : String :=
  "Suspicious merchant: " ++
    (match t.merchant with
     | some (.str s) => s
     | _ => "")

/-- Message of the category rule. -/
def catMsg (t : Txn) : String :=
  "Category: " ++
    (match t.category with
     | some (.str s) => s
     | _ => "")

/-- Message of the VPN/Tor rule: `txn.isTor ? 'Tor network detected' :
'VPN/proxy detected'`. -/
def vpnMsg (t : Txn) : String :=
  if jsTruthyOpt t.isTor then "Tor network detected" else "VPN/proxy detected"

/-- Message of the card-testing rule. -/
def declMsg (t : Txn) : String :=
  "Previous declines: " ++ numText t.previousDeclines

/-- One `if (cond) { score += w; indicators.push(ind); }` block. -/
def fire (cond : Bool) (w : ℚ) (ind : Indicator) (acc : ℚ × List Indicator) :
    ℚ × List Indicator :=
  if cond then (acc.1 + w, acc.2 ++ [ind]) else acc

/-- The evaluator's result: accumulated score and triggered indicators. -/
structure Assessment where
  score : ℚ
  indicators : List Indicator
deriving DecidableEq, Repr

/-- The rule evaluator: the twelve sequential rule blocks of
`eachMessage`, in source order, accumulating `score` and `indicators`.
`now` is the processing time used when the payload carries no usable
timestamp. -/
def evaluate (t : Txn) (now : DateValue) : Assessment :=
  let acc : ℚ × List Indicator := (0, [])
  let acc := fire (condGeo t) 0.5 ⟨"HIGH_RISK_GEOGRAPHY", geoMsg t⟩ acc
  let acc := fire (condCvv t) 0.3 ⟨"CVV_VERIFICATION_FAILED", "CVV verification failed"⟩ acc
  let acc := fire (condAvs t) 0.15 ⟨"ADDRESS_VERIFICATION_FAILED", "Address verification failed"⟩ acc
  let acc :=
    if condAmountHigh t then
      (acc.1 + 0.2, acc.2 ++ [⟨"UNUSUAL_TRANSACTION_AMOUNT", highAmtMsg t⟩])
    else if condAmountOver50k t then
      (acc.1 + 0.1, acc.2 ++ [⟨"UNUSUAL_TRANSACTION_AMOUNT", medAmtMsg t⟩])
    else acc
  let acc := fire (condMerchant t) 0.3 ⟨"HIGH_RISK_MERCHANT", merchMsg t⟩ acc
  let acc := fire (condCategory t) 0.25 ⟨"HIGH_RISK_MERCHANT_CATEGORY", catMsg t⟩ acc
  let acc := fire (condDevice t) 0.2 ⟨"SUSPICIOUS_DEVICE", "Suspicious device detected"⟩ acc
  let acc := fire (condVpn t) 0.15 ⟨"VPN_OR_PROXY_DETECTED", vpnMsg t⟩ acc
  let acc := fire (condDeclines t) 0.3 ⟨"CARD_TESTING_PATTERN", declMsg t⟩ acc
  let acc := fire (condAccountAge t) 0.1 ⟨"NEW_ACCOUNT_RISK", "New account risk"⟩ acc
  let acc := fire (condNight (effTimestamp t.timestamp now)) 0.08
    ⟨"UNUSUAL_TRANSACTION_TIME", "Night-time transaction"⟩ acc
  ⟨acc.1, acc.2⟩

/-- The four risk levels. -/
inductive RiskLevel where
  | LOW
  | MEDIUM
  | HIGH
  | CRITICAL
deriving DecidableEq, Repr

/-- The risk classifier: the chained conditional
`score >= 0.7 ? 'CRITICAL' : score >= 0.5 ? 'HIGH' : score >= 0.3 ?
'MEDIUM' : 'LOW'`. -/
def classify (score : ℚ) : RiskLevel :=
  if score ≥ 0.7 then .CRITICAL
  else if score ≥ 0.5 then .HIGH
  else if score ≥ 0.3 then .MEDIUM
  else .LOW

/-- Specification-side condition of the §4.1 high-amount row:
`amount > 100000` (amount numeric, per the §3 data model). -/
def specAmountHigh (t : Txn) : Bool :=
  match t.amount with
  | some (.num q) => decide ((100000 : ℚ) < q)
  | _ => false

/-- Specification-side condition of the §4.1 medium-amount row:
`50000 < amount ≤ 100000`, stated as mutually exclusive with the
high-amount row. -/
def specAmountMedium (t : Txn) : Bool :=
  match t.amount with
  | some (.num q) => decide ((50000 : ℚ) < q ∧ q ≤ (100000 : ℚ))
  | _ => false

/-- Specification-side score, transcribing the §4.1 rule table: the sum
of the weights of the rows whose conditions the payload satisfies, the
two amount rows stated with the table's explicit, mutually exclusive
ranges (`amount > 100000` and `50000 < amount ≤ 100000`). -/
def tableScore (t : Txn) (now : DateValue) : ℚ :=
  (if condGeo t then 0.5 else 0) +
  (if condCvv t then 0.3 else 0) +
  (if condAvs t then 0.15 else 0) +
  (if specAmountHigh t then 0.2 else 0) +
  (if specAmountMedium t then 0.1 else 0) +
  (if condMerchant t then 0.3 else 0) +
  (if condCategory t then 0.25 else 0) +
  (if condDevice t then 0.2 else 0) +
  (if condVpn t then 0.15 else 0) +
  (if condDeclines t then 0.3 else 0) +
  (if condAccountAge t then 0.1 else 0) +
  (if condNight (effTimestamp t.timestamp now) then 0.08 else 0)

/-- A stored transaction record, as built by `Transaction.create`. -/
structure StoredTxn where
  transactionId : JVal
  accountId : Option String
  amount : Option JVal
  merchant : Option JVal
  category : Option JVal
  location : Option Location
  mlScore : ℚ
  riskLevel : RiskLevel
  fraudIndicators : List String
  timestamp : DateValue
deriving DecidableEq, Repr

/-- An alert record, as built by `Alert.create` and updated by the
review endpoint. -/
structure Alert where
  alertId : String
  transactionId : JVal
  transaction : Txn
  mlScore : ℚ
  riskLevel : RiskLevel
  reasons : List Indicator
  status : String
  assignedTo : Option String := none
  reviewedAt : Option DateValue := none
  action : Option String := none
  comments : Option String := none
  createdAt : DateValue
deriving DecidableEq, Repr

/-- The document store: the `transactions` and `alerts` collections, in
insertion order. -/
structure DB where
  transactions : List StoredTxn := []
  alerts : List Alert := []
deriving DecidableEq, Repr

/-- Processing environment of one message: the processing time
(`new Date()` / `Date.now()`), the random alert-id suffix, and fault
flags for the two persistence writes. -/
structure Env where
  now : DateValue
  nowMs : Nat
  randSuffix : String
  txInsertFails : Bool := false
  alertInsertFails : Bool := false

/-- A Kafka message value: undecodable JSON, or a parsed payload. -/
inductive KMsg where
  | malformed
  | parsed (t : Txn)

/-- A per-message error: `JSON.parse` throwing, or a rejected
persistence write. -/
inductive PErr where
  | parseError
  | persistError
deriving DecidableEq, Repr

/-- The stored transaction that `Transaction.create` receives for
payload `txn` resolved to identifier `tid`. -/
def mkStored (env : Env) (txn : Txn) (tid : JVal) : StoredTxn :=
  let a := evaluate txn env.now
  { transactionId := tid
    accountId := txn.accountId
    amount := txn.amount
    merchant := txn.merchant
    category := txn.category
    location := txn.location
    mlScore := a.score
    riskLevel := classify a.score
    fraudIndicators := a.indicators.map Indicator.message
    timestamp := effTimestamp txn.timestamp env.now }

/-- The alert that `Alert.create` receives for payload `txn` resolved
to identifier `tid`: id `ALERT` + `Date.now()` + random suffix, the full
original payload, the wrapped score, and status `PENDING`. -/
def mkAlert (env : Env) (txn : Txn) (tid : JVal) : Alert :=
  let a := evaluate txn env.now
  { alertId := "ALERT" ++ toString env.nowMs ++ env.randSuffix
    transactionId := tid
    transaction := txn
    mlScore := a.score
    riskLevel := classify a.score
    reasons := a.indicators
    status := "PENDING"
    createdAt := env.now }

/-- The body of the `eachMessage` handler, up to but excluding its
`try/catch`: parse, resolve the identifier (discarding silently when
absent), evaluate, persist the transaction, and persist an alert when
the score reaches 0.4.  A thrown error carries the store as it stands
at the throw point — completed writes are not rolled back. -/
def eachMessageBody (env : Env) (m : KMsg) (db : DB) : Except (PErr × DB) DB :=
  match m with
  | .malformed => .error (.parseError, db)
  | .parsed txn =>
    match jsTransactionId txn with
    | none => .ok db
    | some tid =>
      let a := evaluate txn env.now
      if env.txInsertFails then .error (.persistError, db)
      else
        let db1 : DB :=
          { db with transactions := db.transactions ++ [mkStored env txn tid] }
        if a.score ≥ 0.4 then
          if env.alertInsertFails then .error (.persistError, db1)
          else .ok { db1 with alerts := db1.alerts ++ [mkAlert env txn tid] }
        else .ok db1

/-- The full `eachMessage` handler: the body wrapped in the `catch`
that logs the error and returns normally. -/
def eachMessage (env : Env) (m : KMsg) (db : DB) : DB :=
  match eachMessageBody env m db with
  | .ok db' => db'
  | .error (_, db') => db'

/-- The consume loop over a list of delivered messages. -/
def runAll (env : Env) (msgs : List KMsg) (db : DB) : DB :=
  msgs.foldl (fun d m => eachMessage env m d) db

/-- Startup outcome: running, or terminated by `process.exit(1)`. -/
inductive StartOutcome where
  | running
  | exited
deriving DecidableEq, Repr

/-- Startup: a failure to connect to the transport is the only path to
`process.exit(1)`. -/
def startConsumer (kafkaConnectOk : Bool) : StartOutcome :=
  if kafkaConnectOk then .running else .exited

/-- The review update applied by `PUT /api/alerts/:alertId`: exactly the
five fields `status = action`, `action`, `comments`, `assignedTo` and
`reviewedAt = now` are replaced. -/
def reviewUpdate (act com asg : String) (now : DateValue) (a : Alert) : Alert :=
  { a with
    status := act
    action := some act
    comments := some com
    assignedTo := some asg
    reviewedAt := some now }

/-- `Alert.findOneAndUpdate({alertId}, upd, {new: true})`: update the
first alert matching `aid` and return it, or return `none` and leave
the list untouched. -/
def findOneAndUpdate (aid : String) (f : Alert → Alert) :
    List Alert → Option Alert × List Alert
  | [] => (none, [])
  | a :: rest =>
    if a.alertId = aid then (some (f a), f a :: rest)
    else
      let r := findOneAndUpdate aid f rest
      (r.1, a :: r.2)

/-- The `PUT /api/alerts/:alertId` handler's effect on the store: look
up by `alertId`, set the five review fields, return the updated record
(`data: null` — here `none` — when no alert matches). -/
def applyReview (db : DB) (aid act com asg : String) (now : DateValue) :
    Option Alert × DB :=
  let r := findOneAndUpdate aid (reviewUpdate act com asg now) db.alerts
  (r.1, { db with alerts := r.2 })

/-- The claimed effective-timestamp resolution, following the
specification's words: the payload's `timestamp` when that field is
present and parseable, the processing time otherwise — including when
the field is present but not parseable as a date. -/
def specEffTimestamp (ts : TsField) (now : DateValue) : DateValue :=
  match ts with
  | .truthy d => if d.valid then d else now
  | .falsy d => if d.valid then d else now
  | .absent => now

/-- A singleton indicator list when the rule fires, empty otherwise. -/
def optI (c : Bool) (i : Indicator) : List Indicator :=
  if c then [i] else []

/-- A valid daytime processing moment (noon). -/
def dayNoon : DateValue := ⟨true, 12⟩

/-- The specification's worked example payload:
`{location.risk: "high", cvvMatch: false, amount: 150000}`. -/
def exHighRisk : Txn :=
  { location := some ⟨some (.str "high"), none⟩
    cvvMatch := some (.jbool false)
    amount := some (.num 150000) }

/-- A payload whose only scored field is `amount = 75000`. -/
def exAmount75k : Txn :=
  { amount := some (.num 75000) }

/-- The worked example payload carrying an identifier, for pipeline
claims. -/
def exAlertTxn : Txn :=
  { id := some (.str "T1")
    location := some ⟨some (.str "high"), none⟩
    cvvMatch := some (.jbool false)
    amount := some (.num 150000) }

/-- A payload triggering every rule: geography, CVV, AVS, high amount,
merchant, category, device, Tor, declines, account age, and a night
timestamp. -/
def exMaxTxn : Txn :=
  { location := some ⟨some (.str "high"), none⟩
    cvvMatch := some (.jbool false)
    avsMatch := some (.jbool false)
    amount := some (.num 150000)
    merchant := some (.str "CRYPTO_EXCHANGE")
    category := some (.str "CRYPTO")
    device := some (.str "Emulator")
    isTor := some (.jbool true)
    previousDeclines := some (.num 5)
    accountAge := some (.num 10)
    timestamp := .truthy ⟨true, 23⟩ }

/-- A payload with a string `amount` and a fractional
`previousDeclines`. -/
def exWeird : Txn :=
  { amount := some (.str "150000")
    previousDeclines := some (.num (7 / 2)) }

/-- A fault-free processing environment at noon. -/
def exEnv : Env :=
  { now := dayNoon, nowMs := 1700000000000, randSuffix := "ab3xz" }

/-- An environment whose transaction write is rejected by the store. -/
def exFailEnv : Env :=
  { now := dayNoon, nowMs := 1700000000000, randSuffix := "ab3xz"
    txInsertFails := true }

/-- An alert on file, for review-endpoint claims. -/
def exAlert : Alert :=
  { alertId := "A1"
    transactionId := .str "T1"
    transaction := exHighRisk
    mlScore := 1
    riskLevel := .CRITICAL
    reasons := []
    status := "PENDING"
    createdAt := dayNoon }

/-- Score contribution of one rule block. -/
theorem fire_fst (c : Bool) (w : ℚ) (i : Indicator) (acc : ℚ × List Indicator) :
    (fire c w i acc).1 = acc.1 + (if c then w else 0) := by
  cases c <;> simp [fire]

/-- Indicator contribution of one rule block. -/
theorem fire_snd (c : Bool) (w : ℚ) (i : Indicator) (acc : ℚ × List Indicator) :
    (fire c w i acc).2 = acc.2 ++ (if c then [i] else []) := by
  cases c <;> simp [fire]

/-- The evaluator's score as a sum of one conditional weight per rule
block, the amount block keeping its `else if` shape. -/
theorem evaluate_score (t : Txn) (now : DateValue) :
    (evaluate t now).score =
      (if condGeo t then (0.5 : ℚ) else 0) +
      (if condCvv t then 0.3 else 0) +
      (if condAvs t then 0.15 else 0) +
      (if condAmountHigh t then 0.2 else if condAmountOver50k t then 0.1 else 0) +
      (if condMerchant t then 0.3 else 0) +
      (if condCategory t then 0.25 else 0) +
      (if condDevice t then 0.2 else 0) +
      (if condVpn t then 0.15 else 0) +
      (if condDeclines t then 0.3 else 0) +
      (if condAccountAge t then 0.1 else 0) +
      (if condNight (effTimestamp t.timestamp now) then 0.08 else 0) := by
  show (evaluate t now).score = _
  cases hH : condAmountHigh t <;> cases hM : condAmountOver50k t <;>
    simp [evaluate, fire_fst, hH, hM]

/-- The code's `else if` amount contribution coincides with the sum of
the two mutually exclusive table rows. -/
theorem amount_term (t : Txn) :
    (if condAmountHigh t then (0.2 : ℚ) else if condAmountOver50k t then 0.1 else 0) =
      (if specAmountHigh t then (0.2 : ℚ) else 0) +
      (if specAmountMedium t then 0.1 else 0) := by
  unfold condAmountHigh condAmountOver50k specAmountHigh specAmountMedium
  cases ha : t.amount with
  | none => simp
  | some v =>
    cases v with
    | num q =>
      by_cases h1 : (100000 : ℚ) < q <;> by_cases h2 : (50000 : ℚ) < q <;>
        simp [h1, h2, le_of_not_lt]
    | str s => simp
    | jbool b => simp
    | obj b => simp

/-- The evaluator's indicator list as the concatenation of one
conditional block per rule, in source order. -/
theorem evaluate_indicators (t : Txn) (now : DateValue) :
    (evaluate t now).indicators =
      optI (condGeo t) ⟨"HIGH_RISK_GEOGRAPHY", geoMsg t⟩ ++
      optI (condCvv t) ⟨"CVV_VERIFICATION_FAILED", "CVV verification failed"⟩ ++
      optI (condAvs t) ⟨"ADDRESS_VERIFICATION_FAILED", "Address verification failed"⟩ ++
      (if condAmountHigh t then [⟨"UNUSUAL_TRANSACTION_AMOUNT", highAmtMsg t⟩]
       else if condAmountOver50k t then [⟨"UNUSUAL_TRANSACTION_AMOUNT", medAmtMsg t⟩]
       else []) ++
      optI (condMerchant t) ⟨"HIGH_RISK_MERCHANT", merchMsg t⟩ ++
      optI (condCategory t) ⟨"HIGH_RISK_MERCHANT_CATEGORY", catMsg t⟩ ++
      optI (condDevice t) ⟨"SUSPICIOUS_DEVICE", "Suspicious device detected"⟩ ++
      optI (condVpn t) ⟨"VPN_OR_PROXY_DETECTED", vpnMsg t⟩ ++
      optI (condDeclines t) ⟨"CARD_TESTING_PATTERN", declMsg t⟩ ++
      optI (condAccountAge t) ⟨"NEW_ACCOUNT_RISK", "New account risk"⟩ ++
      optI (condNight (effTimestamp t.timestamp now))
        ⟨"UNUSUAL_TRANSACTION_TIME", "Night-time transaction"⟩ := by
  cases hH : condAmountHigh t <;> cases hM : condAmountOver50k t <;>
    simp [evaluate, fire_snd, optI, hH, hM]


/-- C1: For every transaction payload, the risk score computed by the
rule evaluator equals the exact sum of the weights of the §4.1 table
rows whose conditions the payload satisfies (each matching rule firing
independently, the 0.20 and 0.10 amount rows mutually exclusive); in
particular the payload `{location.risk: "high", cvvMatch: false,
amount: 150000}` evaluated at a daytime processing moment scores 1.00
with risk level CRITICAL, and a payload with `amount = 75000`
contributes only 0.10. -/
theorem score_refines_rule_table :
    (∀ (t : Txn) (now : DateValue), (evaluate t now).score = tableScore t now) ∧
    (evaluate exHighRisk dayNoon).score = 1 ∧
    classify (evaluate exHighRisk dayNoon).score = RiskLevel.CRITICAL ∧
    (evaluate exAmount75k dayNoon).score = 0.1 := by
  have hgen : ∀ (t : Txn) (now : DateValue), (evaluate t now).score = tableScore t now := by
    intro t now
    rw [evaluate_score, amount_term]
    unfold tableScore
    ring
  have h1 : (evaluate exHighRisk dayNoon).score = 1 := by
    rw [evaluate_score]
    simp [condGeo, condCvv, condAvs, condAmountHigh, condAmountOver50k,
      condMerchant, condCategory, condDevice, condVpn, condDeclines,
      condAccountAge, condNight, locRisk, exHighRisk, dayNoon, effTimestamp,
      jsTruthyOpt, suspiciousCategories, suspiciousDevices]
    norm_num
  have h2 : classify (evaluate exHighRisk dayNoon).score = RiskLevel.CRITICAL := by
    rw [h1]; norm_num [classify]
  have h3 : (evaluate exAmount75k dayNoon).score = 0.1 := by
    rw [evaluate_score]
    simp [condGeo, condCvv, condAvs, condAmountHigh, condAmountOver50k,
      condMerchant, condCategory, condDevice, condVpn, condDeclines,
      condAccountAge, condNight, locRisk, exAmount75k, dayNoon, effTimestamp,
      jsTruthyOpt, suspiciousCategories, suspiciousDevices]
    norm_num
  exact ⟨hgen, h1, h2, h3⟩

/-- C2: The classifier returns CRITICAL iff the score is at least 0.70,
else HIGH iff at least 0.50, else MEDIUM iff at least 0.30, else LOW —
thresholds closed on the lower bound, evaluated highest-first — with
the stated boundary values. -/
theorem classify_thresholds :
    (∀ s : ℚ,
      (classify s = RiskLevel.CRITICAL ↔ 0.7 ≤ s) ∧
      (classify s = RiskLevel.HIGH ↔ 0.5 ≤ s ∧ s < 0.7) ∧
      (classify s = RiskLevel.MEDIUM ↔ 0.3 ≤ s ∧ s < 0.5) ∧
      (classify s = RiskLevel.LOW ↔ s < 0.3)) ∧
    classify 0.7 = RiskLevel.CRITICAL ∧ classify 0.6999 = RiskLevel.HIGH ∧
    classify 0.5 = RiskLevel.HIGH ∧ classify 0.4999 = RiskLevel.MEDIUM ∧
    classify 0.3 = RiskLevel.MEDIUM ∧ classify 0.2999 = RiskLevel.LOW := by
  refine ⟨?_, by norm_num [classify], by norm_num [classify], by norm_num [classify],
    by norm_num [classify], by norm_num [classify], by norm_num [classify]⟩
  intro s
  rcases le_or_lt 0.7 s with h1 | h1
  · have hc : classify s = RiskLevel.CRITICAL := by simp [classify, h1]
    rw [hc]
    refine ⟨?_, ?_, ?_, ?_⟩ <;> simp [h1] <;> intros <;> linarith
  · rcases le_or_lt 0.5 s with h2 | h2
    · have hc : classify s = RiskLevel.HIGH := by simp [classify, not_le.mpr h1, h2]
      rw [hc]
      refine ⟨?_, ?_, ?_, ?_⟩ <;> simp [h1, h2] <;> intros <;> linarith
    · rcases le_or_lt 0.3 s with h3 | h3
      · have hc : classify s = RiskLevel.MEDIUM := by
          simp [classify, not_le.mpr h1, not_le.mpr h2, h3]
        rw [hc]
        refine ⟨?_, ?_, ?_, ?_⟩ <;> simp [h2, h3] <;> intros <;> linarith
      · have hc : classify s = RiskLevel.LOW := by
          simp [classify, not_le.mpr h1, not_le.mpr h2, not_le.mpr h3]
        rw [hc]
        refine ⟨?_, ?_, ?_, ?_⟩ <;> simp [h3] <;> intros <;> linarith



/-- C3: For every consumed message carrying an identifier, under a
fault-free store the pipeline appends the stored transaction
unconditionally, and it appends an alert — whose status is PENDING —
exactly when the computed score is at least 0.40; below 0.40 the alert
collection is untouched while the transaction is still stored. -/
theorem stored_unconditionally_alert_iff_threshold
    (env : Env) (txn : Txn) (db : DB) (tid : JVal)
    (hid : jsTransactionId txn = some tid)
    (htx : env.txInsertFails = false) (hal : env.alertInsertFails = false) :
    (eachMessage env (.parsed txn) db).transactions
        = db.transactions ++ [mkStored env txn tid] ∧
    ((0.4 : ℚ) ≤ (evaluate txn env.now).score →
      (eachMessage env (.parsed txn) db).alerts
          = db.alerts ++ [mkAlert env txn tid] ∧
      (mkAlert env txn tid).status = "PENDING") ∧
    ((evaluate txn env.now).score < 0.4 →
      (eachMessage env (.parsed txn) db).alerts = db.alerts) := by
  rcases le_or_lt 0.4 (evaluate txn env.now).score with hs | hs
  · simp [eachMessage, eachMessageBody, hid, htx, hal, hs, mkAlert]
  · simp [eachMessage, eachMessageBody, hid, htx, hal, not_le.mpr hs]

/-- Witness for C3 at the concrete high-risk payload. -/
theorem stored_unconditionally_alert_iff_threshold_witness :
    jsTransactionId exAlertTxn = some (JVal.str "T1") ∧
    (eachMessage exEnv (KMsg.parsed exAlertTxn) ⟨[], []⟩).transactions
      = [mkStored exEnv exAlertTxn (JVal.str "T1")] ∧
    (eachMessage exEnv (KMsg.parsed exAlertTxn) ⟨[], []⟩).alerts
      = [mkAlert exEnv exAlertTxn (JVal.str "T1")] ∧
    (mkAlert exEnv exAlertTxn (JVal.str "T1")).status = "PENDING" := by
  have hsc : (evaluate exAlertTxn exEnv.now).score = 1 := by
    rw [evaluate_score]
    simp [condGeo, condCvv, condAvs, condAmountHigh, condAmountOver50k,
      condMerchant, condCategory, condDevice, condVpn, condDeclines,
      condAccountAge, condNight, locRisk, exAlertTxn, exEnv, dayNoon,
      effTimestamp, jsTruthyOpt, suspiciousCategories, suspiciousDevices]
    norm_num
  have h := stored_unconditionally_alert_iff_threshold exEnv exAlertTxn ⟨[], []⟩
    (JVal.str "T1") (by decide) rfl rfl
  have hs : (0.4 : ℚ) ≤ (evaluate exAlertTxn exEnv.now).score := by
    rw [hsc]; norm_num
  exact ⟨by decide, by simpa using h.1, by simpa using (h.2.1 hs).1, (h.2.1 hs).2⟩

/-- C4: A parsed payload lacking both `id` and `transactionId` is
discarded: the handler returns normally (the message counts as
consumed), no transaction is stored and no alert is created. -/
theorem missing_identifier_discarded
    (env : Env) (txn : Txn) (db : DB)
    (hid : txn.id = none) (htid : txn.transactionId = none) :
    eachMessageBody env (.parsed txn) db = .ok db ∧
    eachMessage env (.parsed txn) db = db := by
  have h : jsTransactionId txn = none := by simp [jsTransactionId, hid, htid]
  refine ⟨?_, ?_⟩ <;> simp [eachMessage, eachMessageBody, h]

/-- Witness for C4 at the empty payload. -/
theorem missing_identifier_discarded_witness :
    eachMessageBody exEnv (.parsed {}) ⟨[], []⟩ = .ok ⟨[], []⟩ ∧
    eachMessage exEnv (.parsed {}) ⟨[], []⟩ = ⟨[], []⟩ :=
  missing_identifier_discarded exEnv {} ⟨[], []⟩ rfl rfl

/-- C10: Within one message, the alert write is reached only after the
transaction write succeeds: when the transaction insert is rejected the
handler leaves the store untouched — in particular no alert is created,
even for a payload whose score reaches the alert threshold. -/
theorem no_alert_when_transaction_write_fails
    (env : Env) (txn : Txn) (db : DB) (hfail : env.txInsertFails = true) :
    eachMessage env (.parsed txn) db = db ∧
    (eachMessage env (.parsed txn) db).alerts = db.alerts := by
  have h : eachMessage env (.parsed txn) db = db := by
    cases hj : jsTransactionId txn <;>
      simp [eachMessage, eachMessageBody, hj, hfail]
  exact ⟨h, by rw [h]⟩

/-- Witness for C10: the high-risk payload (score 1 ≥ 0.4) under a
store that rejects the transaction write produces no alert. -/
theorem no_alert_when_transaction_write_fails_witness :
    (0.4 : ℚ) ≤ (evaluate exAlertTxn exFailEnv.now).score ∧
    eachMessage exFailEnv (.parsed exAlertTxn) ⟨[], []⟩ = ⟨[], []⟩ ∧
    (eachMessage exFailEnv (.parsed exAlertTxn) ⟨[], []⟩).alerts = [] := by
  have hsc : (evaluate exAlertTxn exFailEnv.now).score = 1 := by
    rw [evaluate_score]
    simp [condGeo, condCvv, condAvs, condAmountHigh, condAmountOver50k,
      condMerchant, condCategory, condDevice, condVpn, condDeclines,
      condAccountAge, condNight, locRisk, exAlertTxn, exFailEnv, dayNoon,
      effTimestamp, jsTruthyOpt, suspiciousCategories, suspiciousDevices]
    norm_num
  have h := no_alert_when_transaction_write_fails exFailEnv exAlertTxn ⟨[], []⟩ rfl
  exact ⟨by rw [hsc]; norm_num, h.1, by simpa using h.2⟩

/-- C8: Per-message errors are contained at the message boundary: a
handler body that throws still yields a normal return carrying the
store as at the throw point, the consume loop goes on with the
remaining messages, batches compose, and only a transport-connect
failure at startup terminates the process. -/
theorem per_message_errors_contained :
    (∀ (env : Env) (m : KMsg) (e : PErr × DB) (msgs : List KMsg) (db : DB),
      eachMessageBody env m db = .error e →
      eachMessage env m db = e.2 ∧
      runAll env (m :: msgs) db = runAll env msgs e.2) ∧
    (∀ (env : Env) (msgs1 msgs2 : List KMsg) (db : DB),
      runAll env (msgs1 ++ msgs2) db = runAll env msgs2 (runAll env msgs1 db)) ∧
    (∀ ok : Bool, startConsumer ok = StartOutcome.exited ↔ ok = false) := by
  refine ⟨?_, ?_, ?_⟩
  · intro env m e msgs db h
    have h1 : eachMessage env m db = e.2 := by simp [eachMessage, h]
    exact ⟨h1, by simp [runAll, h1]⟩
  · intro env msgs1 msgs2 db
    simp [runAll, List.foldl_append]
  · intro ok
    cases ok <;> simp [startConsumer]

/-- Witness for C8: a malformed message is absorbed and the loop
continues with the next message. -/
theorem per_message_errors_contained_witness :
    eachMessage exEnv KMsg.malformed ⟨[], []⟩ = ⟨[], []⟩ ∧
    runAll exEnv [KMsg.malformed, KMsg.parsed exAlertTxn] ⟨[], []⟩
      = runAll exEnv [KMsg.parsed exAlertTxn] ⟨[], []⟩ := by
  have h := per_message_errors_contained.1 exEnv KMsg.malformed
    (PErr.parseError, ⟨[], []⟩) [KMsg.parsed exAlertTxn] ⟨[], []⟩ rfl
  exact ⟨h.1, h.2⟩



/-- `findOneAndUpdate` with no matching alert returns `none` and leaves
the collection untouched. -/
theorem findOneAndUpdate_eq_none (aid : String) (f : Alert → Alert) :
    ∀ l : List Alert, (∀ a ∈ l, a.alertId ≠ aid) →
      findOneAndUpdate aid f l = (none, l) := by
  intro l
  induction l with
  | nil => intro _; rfl
  | cons a rest ih =>
    intro h
    have ha : a.alertId ≠ aid := h a (List.mem_cons_self a rest)
    simp [findOneAndUpdate, ha,
      ih fun b hb => h b (List.mem_cons_of_mem a hb)]

/-- `findOneAndUpdate` returning a record returns the image under `f`
of a matching stored alert, and the record is in the new collection. -/
theorem findOneAndUpdate_eq_some (aid : String) (f : Alert → Alert) :
    ∀ (l : List Alert) (r : Alert) (l' : List Alert),
      findOneAndUpdate aid f l = (some r, l') →
      ∃ a ∈ l, a.alertId = aid ∧ r = f a ∧ r ∈ l' := by
  intro l
  induction l with
  | nil => intro r l' h; simp [findOneAndUpdate] at h
  | cons a rest ih =>
    intro r l' h
    by_cases ha : a.alertId = aid
    · simp [findOneAndUpdate, ha] at h
      exact ⟨a, List.mem_cons_self a rest, ha, h.1.symm, by
        rw [← h.2, h.1]; exact List.mem_cons_self _ _⟩
    · simp [findOneAndUpdate, ha] at h
      rcases hr : findOneAndUpdate aid f rest with ⟨o, rest'⟩
      rw [hr] at h
      simp at h
      obtain ⟨b, hb, hbid, hrb, hmem⟩ := ih r rest' (by rw [hr, h.1])
      exact ⟨b, List.mem_cons_of_mem a hb, hbid, hrb, by
        rw [← h.2]; exact List.mem_cons_of_mem a hmem⟩

/-- C5: The review endpoint on an `alertId` matching no stored alert
returns a not-found outcome (`none`, the source's `data: null`) and
writes nothing; on a match it returns the first matching alert with
exactly the five review fields replaced, and stores the same record. -/
theorem applyReview_contract
    (db : DB) (aid act com asg : String) (now : DateValue) :
    ((∀ a ∈ db.alerts, a.alertId ≠ aid) →
      applyReview db aid act com asg now = (none, db)) ∧
    (∀ r db', applyReview db aid act com asg now = (some r, db') →
      db'.transactions = db.transactions ∧ r ∈ db'.alerts ∧
      ∃ a ∈ db.alerts, a.alertId = aid ∧
        r = reviewUpdate act com asg now a ∧
        r.status = act ∧ r.action = some act ∧ r.comments = some com ∧
        r.assignedTo = some asg ∧ r.reviewedAt = some now) := by
  constructor
  · intro h
    simp [applyReview, findOneAndUpdate_eq_none aid _ db.alerts h]
  · intro r db' h
    have hsome :
        (findOneAndUpdate aid (reviewUpdate act com asg now) db.alerts).1
          = some r := by
      have hc := congrArg Prod.fst h
      simpa [applyReview] using hc
    have hdb' : db' =
        { db with alerts :=
            (findOneAndUpdate aid (reviewUpdate act com asg now) db.alerts).2 } := by
      have hc := congrArg Prod.snd h
      simp [applyReview] at hc
      exact hc.symm
    obtain ⟨a, ha, haid, hra, hmem⟩ :=
      findOneAndUpdate_eq_some aid _ db.alerts r _
        (by rw [← hsome])
    subst hra
    exact ⟨by rw [hdb'], by rw [hdb']; exact hmem,
      a, ha, haid, rfl, rfl, rfl, rfl, rfl, rfl⟩

/-- Witness for C5: not-found on an empty store, and the five-field
update on a store holding one alert. -/
theorem applyReview_contract_witness :
    applyReview ⟨[], []⟩ "A1" "CONFIRMED" "ok" "me" dayNoon = (none, ⟨[], []⟩) ∧
    (applyReview ⟨[], [exAlert]⟩ "A1" "CONFIRMED" "ok" "me" dayNoon).1
      = some (reviewUpdate "CONFIRMED" "ok" "me" dayNoon exAlert) ∧
    (reviewUpdate "CONFIRMED" "ok" "me" dayNoon exAlert).status = "CONFIRMED" ∧
    (reviewUpdate "CONFIRMED" "ok" "me" dayNoon exAlert).reviewedAt
      = some dayNoon := by
  refine ⟨(applyReview_contract ⟨[], []⟩ "A1" "CONFIRMED" "ok" "me" dayNoon).1
    (by simp), rfl, ?_, ?_⟩
  · have h := ((applyReview_contract ⟨[], [exAlert]⟩ "A1" "CONFIRMED" "ok" "me"
      dayNoon).2 (reviewUpdate "CONFIRMED" "ok" "me" dayNoon exAlert)
      ⟨[], [reviewUpdate "CONFIRMED" "ok" "me" dayNoon exAlert]⟩ rfl)
    exact h.2.2.choose_spec.2.2.2.1
  · rfl

/-- Counterexample for C6: a payload timestamp that is present (truthy)
but unparseable makes the code use the Invalid Date, not the processing
time the specification prescribes. -/
theorem effective_timestamp_unparseable_cex :
    effTimestamp (TsField.truthy invalidDate) dayNoon ≠
      specEffTimestamp (TsField.truthy invalidDate) dayNoon ∧
    effTimestamp (TsField.truthy invalidDate) dayNoon = invalidDate ∧
    specEffTimestamp (TsField.truthy invalidDate) dayNoon = dayNoon := by
  refine ⟨?_, rfl, rfl⟩
  decide

/-- C6 (amended): the effective timestamp is `new Date(payload.timestamp)`
whenever the field is truthy — an Invalid Date when unparseable — and
the processing time exactly when the field is absent or falsy; the
stored record carries this effective timestamp, and the time-of-day
rule never fires on an invalid date. -/
theorem effective_timestamp_code :
    (∀ (d : DateValue) (now : DateValue),
      effTimestamp (TsField.truthy d) now = d) ∧
    (∀ (d : DateValue) (now : DateValue),
      effTimestamp (TsField.falsy d) now = now) ∧
    (∀ now : DateValue, effTimestamp TsField.absent now = now) ∧
    (∀ d : DateValue, d.valid = false → condNight d = false) ∧
    (∀ (env : Env) (txn : Txn) (tid : JVal),
      (mkStored env txn tid).timestamp = effTimestamp txn.timestamp env.now) := by
  refine ⟨fun d now => rfl, fun d now => rfl, fun now => rfl, ?_, fun env txn tid => rfl⟩
  intro d hd
  simp [condNight, hd]

/-- Witness for C6 (amended) at the Invalid Date. -/
theorem effective_timestamp_code_witness :
    condNight invalidDate = false ∧
    effTimestamp (TsField.truthy invalidDate) dayNoon = invalidDate :=
  ⟨effective_timestamp_code.2.2.2.1 invalidDate rfl,
    effective_timestamp_code.1 invalidDate dayNoon⟩

/-- The score never exceeds 2.53, the sum of all rule weights. -/
theorem evaluate_score_le (t : Txn) (now : DateValue) :
    (evaluate t now).score ≤ 2.53 := by
  rw [evaluate_score]
  have h1 : (if condGeo t then (0.5 : ℚ) else 0) ≤ 0.5 := by split <;> norm_num
  have h2 : (if condCvv t then (0.3 : ℚ) else 0) ≤ 0.3 := by split <;> norm_num
  have h3 : (if condAvs t then (0.15 : ℚ) else 0) ≤ 0.15 := by split <;> norm_num
  have h4 : (if condAmountHigh t then (0.2 : ℚ)
      else if condAmountOver50k t then 0.1 else 0) ≤ 0.2 := by
    split_ifs <;> norm_num
  have h5 : (if condMerchant t then (0.3 : ℚ) else 0) ≤ 0.3 := by split <;> norm_num
  have h6 : (if condCategory t then (0.25 : ℚ) else 0) ≤ 0.25 := by split <;> norm_num
  have h7 : (if condDevice t then (0.2 : ℚ) else 0) ≤ 0.2 := by split <;> norm_num
  have h8 : (if condVpn t then (0.15 : ℚ) else 0) ≤ 0.15 := by split <;> norm_num
  have h9 : (if condDeclines t then (0.3 : ℚ) else 0) ≤ 0.3 := by split <;> norm_num
  have h10 : (if condAccountAge t then (0.1 : ℚ) else 0) ≤ 0.1 := by
    split <;> norm_num
  have h11 : (if condNight (effTimestamp t.timestamp now) then (0.08 : ℚ) else 0)
      ≤ 0.08 := by split <;> norm_num
  linarith

/-- Counterexample for C7: the score is not unbounded above — no
payload beats the bound 2.53. -/
theorem score_unbounded_cex :
    ¬ ∀ B : ℚ, ∃ (t : Txn) (now : DateValue), B < (evaluate t now).score := by
  intro h
  obtain ⟨t, now, ht⟩ := h 2.53
  exact absurd ht (not_lt.mpr (evaluate_score_le t now))

/-- C7 (amended): the score has no cap applied — it exceeds 1 on a
payload triggering every rule — but it is bounded above by 2.53, the
sum of all twelve rule weights, which is attained. -/
theorem score_bounded_by_total_weight :
    (∀ (t : Txn) (now : DateValue), (evaluate t now).score ≤ 2.53) ∧
    (evaluate exMaxTxn dayNoon).score = 2.53 ∧
    (1 : ℚ) < (evaluate exMaxTxn dayNoon).score := by
  have hmax : (evaluate exMaxTxn dayNoon).score = 2.53 := by
    rw [evaluate_score]
    simp [condGeo, condCvv, condAvs, condAmountHigh, condAmountOver50k,
      condMerchant, condCategory, condDevice, condVpn, condDeclines,
      condAccountAge, condNight, locRisk, exMaxTxn, dayNoon, effTimestamp,
      jsTruthyOpt, jsTruthy, suspiciousCategories, suspiciousDevices,
      suspiciousMerchants, strIncludes, listIncludes]
    norm_num
  exact ⟨evaluate_score_le, hmax, by rw [hmax]; norm_num⟩



/-- Membership in the code projection of one conditional indicator
block. -/
theorem mem_map_code_optI (s : String) (c : Bool) (i : Indicator) :
    s ∈ (optI c i).map Indicator.code ↔ c = true ∧ i.code = s := by
  cases c <;> simp [optI, eq_comm]

/-- A conditional indicator block whose code differs from `s`
contributes no indicator with code `s`. -/
theorem forall_code_ne_optI (s : String) (c : Bool) (cd msg : String)
    (h : ¬ cd = s) : ∀ x ∈ optI c ⟨cd, msg⟩, ¬ x.code = s := by
  cases c <;> simp [optI]
  exact h

/-- C9: A present but non-numeric `amount` fires neither amount rule —
no UNUSUAL_TRANSACTION_AMOUNT indicator, no weight — and a
`previousDeclines` that is not an integer never fires the card-testing
rule, even when the value compares at least 3. -/
theorem non_numeric_fields_do_not_fire (t : Txn) (now : DateValue) :
    (∀ v, t.amount = some v → jsIsNumber v = false →
      condAmountHigh t = false ∧ condAmountOver50k t = false ∧
      "UNUSUAL_TRANSACTION_AMOUNT" ∉
        ((evaluate t now).indicators.map Indicator.code) ∧
      (evaluate t now).score = (evaluate { t with amount := none } now).score) ∧
    (∀ v, t.previousDeclines = some v → isIntegerNum v = false →
      condDeclines t = false ∧
      "CARD_TESTING_PATTERN" ∉
        ((evaluate t now).indicators.map Indicator.code) ∧
      (evaluate t now).score
        = (evaluate { t with previousDeclines := none } now).score) := by
  constructor
  · intro v hv hnum
    have hH : condAmountHigh t = false := by
      unfold condAmountHigh
      rw [hv]
      cases v <;> simp_all [jsIsNumber]
    have hM : condAmountOver50k t = false := by
      unfold condAmountOver50k
      rw [hv]
      cases v <;> simp_all [jsIsNumber]
    refine ⟨hH, hM, ?_, ?_⟩
    · rw [evaluate_indicators]
      simp [hH, hM]
      refine ⟨forall_code_ne_optI _ _ _ _ (by decide),
        forall_code_ne_optI _ _ _ _ (by decide),
        forall_code_ne_optI _ _ _ _ (by decide),
        forall_code_ne_optI _ _ _ _ (by decide),
        forall_code_ne_optI _ _ _ _ (by decide),
        forall_code_ne_optI _ _ _ _ (by decide),
        forall_code_ne_optI _ _ _ _ (by decide),
        forall_code_ne_optI _ _ _ _ (by decide),
        forall_code_ne_optI _ _ _ _ (by decide),
        forall_code_ne_optI _ _ _ _ (by decide)⟩
    · rw [evaluate_score, evaluate_score]
      simp only [hH, hM,
        show condAmountHigh { t with amount := none } = false from rfl,
        show condAmountOver50k { t with amount := none } = false from rfl]
      rfl
  · intro v hv hnum
    have hD : condDeclines t = false := by
      unfold condDeclines
      rw [hv]
      cases v <;> simp_all [isIntegerNum]
    refine ⟨hD, ?_, ?_⟩
    · rw [evaluate_indicators]
      simp [hD]
      refine ⟨forall_code_ne_optI _ _ _ _ (by decide),
        forall_code_ne_optI _ _ _ _ (by decide),
        forall_code_ne_optI _ _ _ _ (by decide), ?_,
        forall_code_ne_optI _ _ _ _ (by decide),
        forall_code_ne_optI _ _ _ _ (by decide),
        forall_code_ne_optI _ _ _ _ (by decide),
        forall_code_ne_optI _ _ _ _ (by decide), by simp [optI],
        forall_code_ne_optI _ _ _ _ (by decide),
        forall_code_ne_optI _ _ _ _ (by decide)⟩
      split_ifs <;> simp
    · rw [evaluate_score, evaluate_score]
      simp only [hD,
        show condDeclines { t with previousDeclines := none } = false from rfl]
      rfl

/-- Witness for C9: the payload with `amount = "150000"` (a string) and
`previousDeclines = 7/2` (non-integer, yet at least 3). -/
theorem non_numeric_fields_do_not_fire_witness :
    jsIsNumber (JVal.str "150000") = false ∧
    isIntegerNum (JVal.num (7 / 2)) = false ∧ (3 : ℚ) ≤ 7 / 2 ∧
    condAmountHigh exWeird = false ∧ condAmountOver50k exWeird = false ∧
    condDeclines exWeird = false ∧
    "UNUSUAL_TRANSACTION_AMOUNT" ∉
      ((evaluate exWeird dayNoon).indicators.map Indicator.code) ∧
    "CARD_TESTING_PATTERN" ∉
      ((evaluate exWeird dayNoon).indicators.map Indicator.code) := by
  have hint : isIntegerNum (JVal.num (7 / 2)) = false := by
    norm_num [isIntegerNum]
  have h1 := (non_numeric_fields_do_not_fire exWeird dayNoon).1
    (JVal.str "150000") rfl rfl
  have h2 := (non_numeric_fields_do_not_fire exWeird dayNoon).2
    (JVal.num (7 / 2)) rfl hint
  exact ⟨rfl, hint, by norm_num, h1.1, h1.2.1, h2.1, h1.2.2.1, h2.2.1⟩


end FraudDetection
